import Mathlib

/-!
# Verification of the HDFS/SQL data-pipeline service

Shallow embedding of `src/server.py` (class `LenderServicer`) and proofs of
the specification claims about it.

The service exposes three operations:
* `DbToHdfs` — retry-governed materialization of the relational data into
  the main parquet file (`server.py` lines 24–68);
* `BlockLocations` — aggregation of block-to-host placement metadata
  (`server.py` lines 70–93);
* `CalcAvgLoan` — the read-through, self-healing partition cache
  (`server.py` lines 95–147).

The embedding models the distributed store as explicit state: each file is
absent, unreadable (open/read raises `OSError`), or holds a list of rows.
Python exceptions are modelled by `Option`/explicit error branches, and the
numeric semantics of `int(numpy_mean)` on an exactly-representable quotient
is integer division truncating toward zero (`Int.tdiv`); the mean of an
empty row set is `none` (numpy yields NaN and `int(nan)` raises
`ValueError`, which the top-level handler converts into an error response).
-/

set_option autoImplicit false

namespace Pipeline

/-- A row of the main dataset / a partition file, restricted to the two
columns the service reads: the partition key `county_code` and the averaged
column `loan_amount`. -/
structure LoanRecord where
  county_code : Int
  loan_amount : Int
deriving Repr, DecidableEq

/-- Observable state of one file in the distributed store, as the reading
code in `CalcAvgLoan` distinguishes it:
`absent` makes `open_input_file` raise `FileNotFoundError` (line 113);
`corrupted` makes open/read raise some other `OSError` (line 118) — the
file exists but is unreadable;
`valid rows` means open and read succeed and yield `rows`. -/
inductive FileState where
  | absent : FileState
  | corrupted (msg : String) : FileState
  | valid (rows : List LoanRecord) : FileState
deriving Repr, DecidableEq

/-- The distributed-store state visible to `CalcAvgLoan`: the main dataset
file `/hdma-wi-2021.parquet` and, for each county code, the partition file
at the path derived from it. -/
structure HdfsState where
  main : FileState
  partitions : Int → FileState

/-- The `CalcAvgLoanResp` message: the computed average, the provenance
string (one of `reuse`, `create`, `recreate`, or empty on error), and the
error description. -/
structure CalcAvgLoanResp where
  avg_loan : Int
  source : String
  error : String
deriving Repr, DecidableEq

/-- The filter `table.filters=[("county_code", "=", county_code)]` of `server.py`
line 126: the rows of the main dataset whose `county_code` equals the key. -/
def matchingRows (rows : List LoanRecord) (key : Int) : List LoanRecord :=
  rows.filter (fun r => r.county_code == key)

/-- The truncated-integer mean over a nonempty row list: raw sum of
`loan_amount` divided by the row count, truncated toward zero (what Python
`int` does to the quotient). -/
def truncMean (rows : List LoanRecord) : Int :=
  Int.tdiv ((rows.map (fun r => r.loan_amount)).sum) (rows.length : Int)

/-- The expression `int(table.column("loan_amount").to_numpy().mean())` of `server.py`
lines 109 and 128.  Over `n > 0` rows this is `truncMean`; over zero rows
numpy produces NaN and `int(nan)` raises `ValueError`, modelled as
`none`. -/
def meanLoanAmount (rows : List LoanRecord) : Option Int :=
  if rows.isEmpty then none else some (truncMean rows)

/-- Error text of the `ValueError` raised by `int(nan)` when the averaged
table has zero rows; surfaced by the top-level handler at line 147. -/
def nanValueError : String := "cannot convert float NaN to integer"

/-- Error text surfaced when opening the main dataset file raises
`FileNotFoundError` (caught only by the top-level handler, line 145). -/
def mainMissingError : String := "FileNotFoundError: /hdma-wi-2021.parquet"

/-- The shared miss path of `CalcAvgLoan` (`server.py` lines 123–143),
entered with `source` already set to `"create"` (line 116) or `"recreate"`
(line 121): read the main file with the county filter, compute the
truncated mean, write the filtered table to the partition path, and return
the average with the established provenance.  Any failure along the way
(main file absent or unreadable, zero matching rows) falls to the top-level
handler (lines 145–147), which returns average `0`, empty source, and the
exception text. -/
def calcAvgLoanMiss (st : HdfsState) (key : Int) (source : String) :
    CalcAvgLoanResp × HdfsState :=
  match st.main with
  | .valid mainRows =>
      let filtered := matchingRows mainRows key
      match meanLoanAmount filtered with
      | some avg =>
          (⟨avg, source, ""⟩,
           ⟨st.main, fun k => if k = key then .valid filtered else st.partitions k⟩)
      | none => (⟨0, "", nanValueError⟩, st)
  | .absent => (⟨0, "", mainMissingError⟩, st)
  | .corrupted msg => (⟨0, "", "OSError: " ++ msg⟩, st)

/-- Embedding of `LenderServicer.CalcAvgLoan` (`server.py` lines 95–147) as a state
transformer on the store.  First try the partition file: on success return
its truncated mean with source `"reuse"` (lines 104–111; an empty partition
table makes `int(nan)` raise, landing in the top-level handler); on
`FileNotFoundError` take the miss path with source `"create"` (lines
113–116); on any other `OSError` take it with source `"recreate"` (lines
118–121). -/
def calcAvgLoan (st : HdfsState) (key : Int) : CalcAvgLoanResp × HdfsState :=
  match st.partitions key with
  | .valid rows =>
      match meanLoanAmount rows with
      | some avg => (⟨avg, "reuse", ""⟩, st)
      | none => (⟨0, "", nanValueError⟩, st)
  | .absent => calcAvgLoanMiss st key "create"
  | .corrupted _ => calcAvgLoanMiss st key "recreate"

/-! ## DbToHdfs — retry-governed materialization (`server.py` lines 24–68)

One attempt of the loop body either succeeds (returning the number of rows
read from the database and written to HDFS) or raises some exception; the
environment `env` gives the outcome of each attempt index.  Besides the
returned status string we record the observable effects of the loop: how
many attempts ran and which `time.sleep` calls happened. -/

/-- Outcome of one attempt of the `DbToHdfs` loop body: either every step
(connect, query, convert, write) succeeded and `len(df)` was `rows`, or
some step raised an exception whose text is `msg`. -/
inductive AttemptResult where
  | ok (rows : Nat) : AttemptResult
  | failed (msg : String) : AttemptResult
deriving Repr, DecidableEq

/-- The constant `max_retries = 5` (`server.py` line 25). -/
def max_retries : Nat := 5

/-- What one `DbToHdfs` call did: the returned status text, the number of
attempts that ran, and the list of `time.sleep` durations performed. -/
structure DbToHdfsRun where
  status : String
  attemptsMade : Nat
  sleeps : List Nat
deriving Repr, DecidableEq

/-- Status text of `server.py` lines 57–59. -/
def successStatus (rows : Nat) : String :=
  "DbToHdfs: Successfully wrote " ++ toString rows ++ " rows"

/-- Status text of `server.py` lines 66–68. -/
def failureStatus (msg : String) : String :=
  "ERROR: Could not complete operation after " ++ toString max_retries ++ " attempts: " ++ msg

/-- The `for attempt in range(max_retries)` loop of `server.py` lines
26–68, unrolled with fuel (the call site passes `fuel = max_retries`, so
`fuel + attempt = max_retries` and the fuel never runs out).  A successful
attempt returns at once (line 57); a failed attempt sleeps 10 seconds and
retries while `attempt < max_retries - 1` (lines 63–64), and otherwise
returns the terminal error status (lines 66–68). -/
def dbToHdfsAux (env : Nat → AttemptResult) : Nat → Nat → DbToHdfsRun
  | 0, _ => ⟨"", 0, []⟩
  | fuel + 1, attempt =>
      match env attempt with
      | .ok rows => ⟨successStatus rows, attempt + 1, []⟩
      | .failed msg =>
          if attempt < max_retries - 1 then
            let r := dbToHdfsAux env fuel (attempt + 1)
            ⟨r.status, r.attemptsMade, 10 :: r.sleeps⟩
          else
            ⟨failureStatus msg, attempt + 1, []⟩

/-- Embedding of `LenderServicer.DbToHdfs` (`server.py` lines 24–68). -/
def dbToHdfs (env : Nat → AttemptResult) : DbToHdfsRun :=
  dbToHdfsAux env max_retries 0

/-! ## BlockLocations — block-to-host aggregation (`server.py` lines 70–93)

The WebHDFS `GETFILEBLOCKLOCATIONS` query either fails (connection error,
non-2xx status raised by `raise_for_status`, bad JSON) or yields, for each
block of the file, the list of hosts holding a replica of that block. -/

/-- Outcome of the metadata query: on success, one entry per block giving
that block's replica-host list (`block.get("hosts", [])`). -/
inductive MetaQueryResult where
  | ok (blockHosts : List (List String)) : MetaQueryResult
  | failed (msg : String) : MetaQueryResult
deriving Repr, DecidableEq

/-- The `BlockLocationsResp` message: host-to-count mapping (as the
insertion-ordered association list a Python dict is) and error string. -/
structure BlockLocationsResp where
  block_entries : List (String × Nat)
  error : String
deriving Repr, DecidableEq

/-- The dict update `blocks[host] = blocks.get(host, 0) + 1` (`server.py` line 86) on a
Python dict, viewed as its insertion-ordered entry list: increment the
entry holding the key (a dict holds each key at most once, so bumping the
first match is the dict update), or append a new entry with count 1. -/
def bumpHost (m : List (String × Nat)) (h : String) : List (String × Nat) :=
  match m with
  | [] => [(h, 1)]
  | p :: rest => if p.1 == h then (p.1, p.2 + 1) :: rest else p :: bumpHost rest h

/-- The double loop of `server.py` lines 83–86: for every block, for every
host in its replica-host list, bump that host's counter. -/
def countBlocks (blockHosts : List (List String)) : List (String × Nat) :=
  blockHosts.foldl (fun m hosts => hosts.foldl bumpHost m) []

/-- Embedding of `LenderServicer.BlockLocations` (`server.py` lines 70–93): on success
return the aggregated mapping with empty error (line 89); on any exception
return an empty mapping and the exception text (line 93). -/
def blockLocations (q : MetaQueryResult) : BlockLocationsResp :=
  match q with
  | .ok blockHosts => ⟨countBlocks blockHosts, ""⟩
  | .failed msg => ⟨[], msg⟩

/-- Sum of all counter values of the mapping. -/
def valuesSum (m : List (String × Nat)) : Nat :=
  (m.map (fun p => p.2)).sum

/-- Total count recorded for host `h` in the mapping (sum over entries with
key `h`; the dict built by `countBlocks` has at most one such entry). -/
def hostCount (m : List (String × Nat)) (h : String) : Nat :=
  ((m.filter (fun p => p.1 == h)).map (fun p => p.2)).sum

/-! ## The extraction query of DbToHdfs (`server.py` lines 32–37)

`SELECT * FROM loans INNER JOIN loan_types ON loans.loan_type_id =
loan_types.id WHERE loans.loan_amount > 30000 AND loans.loan_amount <
800000`. -/

/-- A row of the relational `loans` table, restricted to the columns the
query logic touches. -/
structure Loan where
  loan_type_id : Int
  county_code : Int
  loan_amount : Int
deriving Repr, DecidableEq

/-- A row of the relational `loan_types` table (only its key matters to
the join). -/
structure LoanType where
  id : Int
deriving Repr, DecidableEq

/-- The eligibility predicate of the `WHERE` clause (`server.py` line 36):
`loan_amount` strictly between the two bounds. -/
def eligibleLoan (l : Loan) : Bool :=
  decide (30000 < l.loan_amount) && decide (l.loan_amount < 800000)

/-- The join `INNER JOIN loan_types ON loans.loan_type_id = loan_types.id`
(`server.py` line 35), projected onto the loan columns: each loan row
appears once per matching `loan_types` row. -/
def joinLoanTypes (loans : List Loan) (types : List LoanType) : List Loan :=
  (loans.map (fun l => (types.filter (fun t => t.id == l.loan_type_id)).map
    (fun _ => l))).flatten

/-- The full extraction query of `server.py` lines 32–37: the join filtered
by the eligibility bounds. -/
def dbQuery (loans : List Loan) (types : List LoanType) : List Loan :=
  (joinLoanTypes loans types).filter eligibleLoan

/-! ## Resource handling of one DbToHdfs attempt (`server.py` lines 27–68)

The attempt body acquires two resource handles: the database connection
(`conn = engine.connect()`, line 30, released by `conn.close()`, line 40)
and the HDFS output stream (`with hdfs.open_output_stream(...)`, line 53,
released by the context manager on every exit of the `with` block).  We
record, for each possible first failing step, the acquire/release events
that actually occur before control reaches the `except` handler (which
performs no cleanup, lines 61–68). -/

/-- The steps of the attempt body at which an exception can first arise:
`connect` = `engine.connect()` (line 30); `query` = `pd.read_sql` (line
39); `convert` = `pa.Table.from_pandas` or the `HadoopFileSystem`
constructor (lines 44–51, after `conn.close()`); `openOutput` =
`open_output_stream` (line 53); `write` = `pq.write_table` inside the
`with` block (line 54). -/
inductive PipelineStep where
  | connect : PipelineStep
  | query : PipelineStep
  | convert : PipelineStep
  | openOutput : PipelineStep
  | write : PipelineStep
deriving Repr, DecidableEq

/-- Acquire/release events on the two handles of the attempt body. -/
inductive ResourceEvent where
  | openConn : ResourceEvent
  | closeConn : ResourceEvent
  | openOutFile : ResourceEvent
  | closeOutFile : ResourceEvent
deriving Repr, DecidableEq

/-- The sequence of resource events of one attempt of `DbToHdfs`, given the
first step that raises (`none` = the attempt succeeds).  Traced from
`server.py` lines 29–68: a failure in `engine.connect()` acquires nothing;
a failure in `pd.read_sql` (line 39) happens after the connection is open
and before `conn.close()` (line 40), and the `except` handler does not
close it; failures after line 40 see the connection already closed; the
output stream is opened inside a `with`, so `pq.write_table` raising still
runs the close. -/
def attemptEvents (failAt : Option PipelineStep) : List ResourceEvent :=
  match failAt with
  | some .connect => []
  | some .query => [.openConn]
  | some .convert => [.openConn, .closeConn]
  | some .openOutput => [.openConn, .closeConn]
  | some .write => [.openConn, .closeConn, .openOutFile, .closeOutFile]
  | none => [.openConn, .closeConn, .openOutFile, .closeOutFile]

/-- Number of occurrences of event `e` in the trace. -/
def countEvent (es : List ResourceEvent) (e : ResourceEvent) : Nat :=
  (es.filter (fun x => x == e)).length

/-- Every handle acquired during the attempt is released before the attempt
ends: opens and closes balance for both the connection and the output
file. -/
def handlesReleased (es : List ResourceEvent) : Prop :=
  countEvent es .openConn = countEvent es .closeConn ∧
  countEvent es .openOutFile = countEvent es .closeOutFile

instance (es : List ResourceEvent) : Decidable (handlesReleased es) := by
  unfold handlesReleased; infer_instance

/-! ## Concrete sample data for the witnesses -/

/-- A small main dataset: two rows for county 55001, one for county 55003. -/
def sampleRows : List LoanRecord :=
  [⟨55001, 100000⟩, ⟨55001, 150001⟩, ⟨55003, 200000⟩]

/-- Store state with a valid main dataset and no partition files. -/
def sampleState : HdfsState :=
  ⟨.valid sampleRows, fun _ => .absent⟩

/-- Store state whose partition file for county 55001 is corrupted. -/
def corruptedState : HdfsState :=
  ⟨.valid sampleRows,
   fun k => if k = 55001 then .corrupted "block unavailable" else .absent⟩

/-- Store state with the main dataset missing and no partition files. -/
def mainlessState : HdfsState :=
  ⟨.absent, fun _ => .absent⟩

/-! ## Basic lemmas about the partition-cache engine -/

theorem meanLoanAmount_of_ne_nil {rows : List LoanRecord} (h : rows ≠ []) :
    meanLoanAmount rows = some (truncMean rows) := by
  simp [meanLoanAmount, h]

theorem meanLoanAmount_nil : meanLoanAmount [] = none := rfl

/-- The miss path on a readable main dataset with at least one matching
row: it returns the truncated mean with the established provenance and
writes the filtered rows to the partition slot. -/
theorem calcAvgLoanMiss_of_valid {st : HdfsState} {key : Int} {mainRows : List LoanRecord}
    (source : String) (hm : st.main = .valid mainRows)
    (hne : matchingRows mainRows key ≠ []) :
    calcAvgLoanMiss st key source =
      (⟨truncMean (matchingRows mainRows key), source, ""⟩,
       ⟨st.main,
        fun k => if k = key then .valid (matchingRows mainRows key) else st.partitions k⟩) := by
  simp [calcAvgLoanMiss, hm, meanLoanAmount_of_ne_nil hne]

/-- The miss path on a readable main dataset with no matching row: the
`int(nan)` failure lands in the top-level handler and the store is
unchanged. -/
theorem calcAvgLoanMiss_of_empty {st : HdfsState} {key : Int} {mainRows : List LoanRecord}
    (source : String) (hm : st.main = .valid mainRows)
    (hz : matchingRows mainRows key = []) :
    calcAvgLoanMiss st key source = (⟨0, "", nanValueError⟩, st) := by
  simp [calcAvgLoanMiss, hm, hz, meanLoanAmount_nil]

/-- Cache hit: a valid, nonempty partition file is served as `reuse` and
the store is unchanged. -/
theorem calcAvgLoan_reuse {st : HdfsState} {key : Int} {rows : List LoanRecord}
    (hp : st.partitions key = .valid rows) (hne : rows ≠ []) :
    calcAvgLoan st key = (⟨truncMean rows, "reuse", ""⟩, st) := by
  simp [calcAvgLoan, hp, meanLoanAmount_of_ne_nil hne]

theorem calcAvgLoan_absent {st : HdfsState} {key : Int}
    (hp : st.partitions key = .absent) :
    calcAvgLoan st key = calcAvgLoanMiss st key "create" := by
  simp [calcAvgLoan, hp]

theorem calcAvgLoan_corrupted {st : HdfsState} {key : Int} {msg : String}
    (hp : st.partitions key = .corrupted msg) :
    calcAvgLoan st key = calcAvgLoanMiss st key "recreate" := by
  simp [calcAvgLoan, hp]

/-- Inversion: a call can only return `source = "create"` when the
partition was absent, the main dataset was readable, and at least one row
matched; and then the call is exactly the successful create. -/
theorem calcAvgLoan_create_inv {st : HdfsState} {key : Int}
    (h : (calcAvgLoan st key).1.source = "create") :
    st.partitions key = .absent ∧
    ∃ mainRows, st.main = .valid mainRows ∧ matchingRows mainRows key ≠ [] ∧
      calcAvgLoan st key =
        (⟨truncMean (matchingRows mainRows key), "create", ""⟩,
         ⟨st.main,
          fun k => if k = key then .valid (matchingRows mainRows key)
                   else st.partitions k⟩) := by
  cases hp : st.partitions key with
  | valid rows =>
      by_cases hne : rows = []
      · subst hne
        rw [show calcAvgLoan st key = (⟨0, "", nanValueError⟩, st) by
              simp [calcAvgLoan, hp, meanLoanAmount_nil]] at h
        simp at h
      · rw [calcAvgLoan_reuse hp hne] at h
        simp at h
  | corrupted msg =>
      rw [calcAvgLoan_corrupted hp] at h
      cases hm : st.main with
      | valid mainRows =>
          by_cases hz : matchingRows mainRows key = []
          · rw [calcAvgLoanMiss_of_empty _ hm hz] at h
            simp at h
          · rw [calcAvgLoanMiss_of_valid _ hm hz] at h
            simp at h
      | absent => rw [show calcAvgLoanMiss st key "recreate" = (⟨0, "", mainMissingError⟩, st) by
                        simp [calcAvgLoanMiss, hm]] at h
                  simp at h
      | corrupted m => rw [show calcAvgLoanMiss st key "recreate" =
                             (⟨0, "", "OSError: " ++ m⟩, st) by
                             simp [calcAvgLoanMiss, hm]] at h
                       simp at h
  | absent =>
      rw [calcAvgLoan_absent hp] at h
      refine ⟨rfl, ?_⟩
      cases hm : st.main with
      | valid mainRows =>
          by_cases hz : matchingRows mainRows key = []
          · rw [calcAvgLoanMiss_of_empty _ hm hz] at h
            simp at h
          · refine ⟨mainRows, rfl, hz, ?_⟩
            rw [calcAvgLoan_absent hp, calcAvgLoanMiss_of_valid _ hm hz, hm]
      | absent => rw [show calcAvgLoanMiss st key "create" = (⟨0, "", mainMissingError⟩, st) by
                        simp [calcAvgLoanMiss, hm]] at h
                  simp at h
      | corrupted m => rw [show calcAvgLoanMiss st key "create" =
                             (⟨0, "", "OSError: " ++ m⟩, st) by
                             simp [calcAvgLoanMiss, hm]] at h
                       simp at h

/-! ## Claim C1 -/

/-- C1: if a first `CalcAvgLoan` call for a key returns with
`source = "create"` (the partition file did not exist), then a second call
with the same key, on the store state the first call left behind, returns
the identical average and `source = "reuse"`. -/
theorem c1_create_then_reuse (st : HdfsState) (key : Int)
    (h : (calcAvgLoan st key).1.source = "create") :
    (calcAvgLoan (calcAvgLoan st key).2 key).1.source = "reuse" ∧
    (calcAvgLoan (calcAvgLoan st key).2 key).1.avg_loan =
      (calcAvgLoan st key).1.avg_loan := by
  obtain ⟨-, mainRows, -, hz, heq⟩ := calcAvgLoan_create_inv h
  rw [heq]
  have hp2 : (⟨st.main,
      fun k => if k = key then FileState.valid (matchingRows mainRows key)
               else st.partitions k⟩ : HdfsState).partitions key =
      FileState.valid (matchingRows mainRows key) := by simp
  rw [calcAvgLoan_reuse hp2 hz]
  exact ⟨rfl, rfl⟩

/-- Witness for C1 at the concrete sample store and county 55001. -/
theorem c1_create_then_reuse_witness :
    (calcAvgLoan (calcAvgLoan sampleState 55001).2 55001).1.source = "reuse" ∧
    (calcAvgLoan (calcAvgLoan sampleState 55001).2 55001).1.avg_loan =
      (calcAvgLoan sampleState 55001).1.avg_loan :=
  c1_create_then_reuse sampleState 55001 (by decide)

/-- A nonempty string prefix keeps a concatenation nonempty. -/
theorem append_ne_empty_of_left (s t : String) (h : s.length ≠ 0) :
    s ++ t ≠ "" := by
  intro he
  have hl := congrArg String.length he
  rw [String.length_append] at hl
  simp at hl
  exact h hl.1

/-! ## Claim C2 -/

/-- C2: on a store whose partition file for the key (when present and
readable) holds exactly the rows of the main dataset matching the key —
the invariant the cache maintains — any call that reports a provenance of
`create`, `reuse` or `recreate` returns the raw sum of `loan_amount` over
the matching main-dataset rows divided by their number, truncated toward
zero. -/
theorem c2_avg_matches_main (st : HdfsState) (key : Int) (mainRows : List LoanRecord)
    (hm : st.main = .valid mainRows)
    (hcoh : ∀ rows, st.partitions key = .valid rows → rows = matchingRows mainRows key)
    (hsrc : (calcAvgLoan st key).1.source = "create" ∨
            (calcAvgLoan st key).1.source = "reuse" ∨
            (calcAvgLoan st key).1.source = "recreate") :
    (calcAvgLoan st key).1.avg_loan =
      Int.tdiv (((matchingRows mainRows key).map (fun r => r.loan_amount)).sum)
        (((matchingRows mainRows key).length : Int)) := by
  show (calcAvgLoan st key).1.avg_loan = truncMean (matchingRows mainRows key)
  cases hp : st.partitions key with
  | valid rows =>
      have hrows := hcoh rows hp
      by_cases hne : rows = []
      · rw [show calcAvgLoan st key = (⟨0, "", nanValueError⟩, st) by
              simp [calcAvgLoan, hp, hne, meanLoanAmount_nil]] at hsrc
        simp at hsrc
      · rw [calcAvgLoan_reuse hp hne, hrows]
  | absent =>
      rw [calcAvgLoan_absent hp] at hsrc ⊢
      by_cases hz : matchingRows mainRows key = []
      · rw [calcAvgLoanMiss_of_empty _ hm hz] at hsrc
        simp at hsrc
      · rw [calcAvgLoanMiss_of_valid _ hm hz]
  | corrupted msg =>
      rw [calcAvgLoan_corrupted hp] at hsrc ⊢
      by_cases hz : matchingRows mainRows key = []
      · rw [calcAvgLoanMiss_of_empty _ hm hz] at hsrc
        simp at hsrc
      · rw [calcAvgLoanMiss_of_valid _ hm hz]

/-- Witness for C2 at the concrete sample store and county 55001: the two
matching amounts 100000 and 150001 average to 125000 (truncated). -/
theorem c2_avg_matches_main_witness :
    (calcAvgLoan sampleState 55001).1.avg_loan =
      Int.tdiv (((matchingRows sampleRows 55001).map (fun r => r.loan_amount)).sum)
        (((matchingRows sampleRows 55001).length : Int)) :=
  c2_avg_matches_main sampleState 55001 sampleRows rfl
    (fun rows h => by simp [sampleState] at h) (Or.inl (by decide))

/-! ## Claim C3 -/

/-- C3: when the partition file exists but its open or read fails for a
storage-level reason other than not-found, the call reports
`source = "recreate"`, returns the average freshly recomputed from the
main dataset, rewrites the partition file with the matching rows, and a
subsequent call for the key is served as `reuse` with the same average. -/
theorem c3_recreate_heals (st : HdfsState) (key : Int) (msg : String)
    (mainRows : List LoanRecord)
    (hp : st.partitions key = .corrupted msg)
    (hm : st.main = .valid mainRows)
    (hne : matchingRows mainRows key ≠ []) :
    (calcAvgLoan st key).1.source = "recreate" ∧
    (calcAvgLoan st key).1.avg_loan = truncMean (matchingRows mainRows key) ∧
    (calcAvgLoan st key).2.partitions key = .valid (matchingRows mainRows key) ∧
    (calcAvgLoan (calcAvgLoan st key).2 key).1.source = "reuse" ∧
    (calcAvgLoan (calcAvgLoan st key).2 key).1.avg_loan =
      (calcAvgLoan st key).1.avg_loan := by
  rw [calcAvgLoan_corrupted hp, calcAvgLoanMiss_of_valid _ hm hne]
  refine ⟨rfl, rfl, by simp, ?_⟩
  have hp2 : (⟨st.main,
      fun k => if k = key then FileState.valid (matchingRows mainRows key)
               else st.partitions k⟩ : HdfsState).partitions key =
      FileState.valid (matchingRows mainRows key) := by simp
  rw [calcAvgLoan_reuse hp2 hne]
  exact ⟨rfl, rfl⟩

/-- Witness for C3 at the store whose partition file for county 55001 is
corrupted. -/
theorem c3_recreate_heals_witness :
    (calcAvgLoan corruptedState 55001).1.source = "recreate" ∧
    (calcAvgLoan corruptedState 55001).1.avg_loan =
      truncMean (matchingRows sampleRows 55001) ∧
    (calcAvgLoan corruptedState 55001).2.partitions 55001 =
      .valid (matchingRows sampleRows 55001) ∧
    (calcAvgLoan (calcAvgLoan corruptedState 55001).2 55001).1.source = "reuse" ∧
    (calcAvgLoan (calcAvgLoan corruptedState 55001).2 55001).1.avg_loan =
      (calcAvgLoan corruptedState 55001).1.avg_loan :=
  c3_recreate_heals corruptedState 55001 "block unavailable" sampleRows
    (by decide) rfl (by decide)

/-! ## Claim C4 -/

/-- C4: when the call cannot serve the request from the partition file and
the main dataset itself is missing or unreadable — an exception none of the
anticipated cache steps handles — the operation still returns (the
embedding is a total function, mirroring the top-level `except` at
`server.py` line 145): average `0`, empty provenance, a non-empty error
text, and the store untouched. -/
theorem c4_unanticipated_error (st : HdfsState) (key : Int)
    (hp : st.partitions key = .absent ∨ ∃ m, st.partitions key = .corrupted m)
    (hm : st.main = .absent ∨ ∃ m, st.main = .corrupted m) :
    (calcAvgLoan st key).1.avg_loan = 0 ∧
    (calcAvgLoan st key).1.source = "" ∧
    (calcAvgLoan st key).1.error ≠ "" ∧
    (calcAvgLoan st key).2 = st := by
  have hmain : ∀ source : String,
      (calcAvgLoanMiss st key source).1.avg_loan = 0 ∧
      (calcAvgLoanMiss st key source).1.source = "" ∧
      (calcAvgLoanMiss st key source).1.error ≠ "" ∧
      (calcAvgLoanMiss st key source).2 = st := by
    intro source
    rcases hm with hm | ⟨m, hm⟩
    · refine ⟨?_, ?_, ?_, ?_⟩ <;> simp [calcAvgLoanMiss, hm, mainMissingError]
    · refine ⟨?_, ?_, ?_, ?_⟩ <;>
        simp [calcAvgLoanMiss, hm, append_ne_empty_of_left "OSError: " m (by decide)]
  rcases hp with hp | ⟨m, hp⟩
  · rw [calcAvgLoan_absent hp]; exact hmain "create"
  · rw [calcAvgLoan_corrupted hp]; exact hmain "recreate"

/-- Witness for C4 at the store with no main dataset file. -/
theorem c4_unanticipated_error_witness :
    (calcAvgLoan mainlessState 55001).1.avg_loan = 0 ∧
    (calcAvgLoan mainlessState 55001).1.source = "" ∧
    (calcAvgLoan mainlessState 55001).1.error ≠ "" ∧
    (calcAvgLoan mainlessState 55001).2 = mainlessState :=
  c4_unanticipated_error mainlessState 55001 (Or.inl rfl) (Or.inl rfl)

/-! ## Claim C10 -/

/-- C10: a key with zero matching rows and no partition file completes
without raising: the mean over zero rows is not a representable integer
(`int(nan)` raises `ValueError`), the top-level handler converts this into
the error result — average `0`, empty source, non-empty error — and the
store is unchanged (no partition file is written). -/
theorem c10_zero_rows_error (st : HdfsState) (key : Int) (mainRows : List LoanRecord)
    (hp : st.partitions key = .absent)
    (hm : st.main = .valid mainRows)
    (hz : matchingRows mainRows key = []) :
    (calcAvgLoan st key).1 = ⟨0, "", nanValueError⟩ ∧
    nanValueError ≠ "" ∧
    (calcAvgLoan st key).2 = st := by
  rw [calcAvgLoan_absent hp, calcAvgLoanMiss_of_empty _ hm hz]
  exact ⟨rfl, by decide, rfl⟩

/-- Witness for C10 at county 55005, which has no rows in the sample main
dataset. -/
theorem c10_zero_rows_error_witness :
    (calcAvgLoan sampleState 55005).1 = ⟨0, "", nanValueError⟩ ∧
    nanValueError ≠ "" ∧
    (calcAvgLoan sampleState 55005).2 = sampleState :=
  c10_zero_rows_error sampleState 55005 sampleRows rfl rfl (by decide)

/-! ## Claim C5 -/

/-- C5: the materialization loop makes at most `max_retries = 5` attempts;
it sleeps exactly 10 time units after each failed attempt that still has
attempts remaining (so the sleep list is `attemptsMade - 1` copies of 10);
the first successful attempt returns immediately with the row count in the
status; and if all five attempts fail, the call returns the terminal
error-carrying status (prefixed `ERROR`) instead of raising. -/
theorem c5_retry_policy (env : Nat → AttemptResult) :
    (dbToHdfs env).attemptsMade ≤ max_retries ∧
    (dbToHdfs env).sleeps =
      List.replicate ((dbToHdfs env).attemptsMade - 1) 10 ∧
    (∀ k rows, k < max_retries → (∀ j, j < k → ∃ m, env j = .failed m) →
      env k = .ok rows →
      dbToHdfs env = ⟨successStatus rows, k + 1, List.replicate k 10⟩) ∧
    ((∀ j, j < max_retries → ∃ m, env j = .failed m) →
      ∃ m, env (max_retries - 1) = .failed m ∧
        dbToHdfs env =
          ⟨failureStatus m, max_retries, List.replicate (max_retries - 1) 10⟩) := by
  refine ⟨?_, ?_, ?_, ?_⟩
  · rcases h0 : env 0 with r0 | m0 <;> rcases h1 : env 1 with r1 | m1 <;>
      rcases h2 : env 2 with r2 | m2 <;> rcases h3 : env 3 with r3 | m3 <;>
      rcases h4 : env 4 with r4 | m4 <;>
      simp [dbToHdfs, dbToHdfsAux, h0, h1, h2, h3, h4, max_retries]
  · rcases h0 : env 0 with r0 | m0 <;> rcases h1 : env 1 with r1 | m1 <;>
      rcases h2 : env 2 with r2 | m2 <;> rcases h3 : env 3 with r3 | m3 <;>
      rcases h4 : env 4 with r4 | m4 <;>
      simp [dbToHdfs, dbToHdfsAux, h0, h1, h2, h3, h4, max_retries,
        List.replicate]
  · intro k rows hk hfail hok
    rw [show max_retries = 5 from rfl] at hk
    interval_cases k
    · simp [dbToHdfs, dbToHdfsAux, hok, max_retries]
    · obtain ⟨m0, h0⟩ := hfail 0 (by omega)
      simp [dbToHdfs, dbToHdfsAux, h0, hok, max_retries, List.replicate]
    · obtain ⟨m0, h0⟩ := hfail 0 (by omega)
      obtain ⟨m1, h1⟩ := hfail 1 (by omega)
      simp [dbToHdfs, dbToHdfsAux, h0, h1, hok, max_retries, List.replicate]
    · obtain ⟨m0, h0⟩ := hfail 0 (by omega)
      obtain ⟨m1, h1⟩ := hfail 1 (by omega)
      obtain ⟨m2, h2⟩ := hfail 2 (by omega)
      simp [dbToHdfs, dbToHdfsAux, h0, h1, h2, hok, max_retries, List.replicate]
    · obtain ⟨m0, h0⟩ := hfail 0 (by omega)
      obtain ⟨m1, h1⟩ := hfail 1 (by omega)
      obtain ⟨m2, h2⟩ := hfail 2 (by omega)
      obtain ⟨m3, h3⟩ := hfail 3 (by omega)
      simp [dbToHdfs, dbToHdfsAux, h0, h1, h2, h3, hok, max_retries,
        List.replicate]
  · intro hfail
    obtain ⟨m0, h0⟩ := hfail 0 (by decide)
    obtain ⟨m1, h1⟩ := hfail 1 (by decide)
    obtain ⟨m2, h2⟩ := hfail 2 (by decide)
    obtain ⟨m3, h3⟩ := hfail 3 (by decide)
    obtain ⟨m4, h4⟩ := hfail 4 (by decide)
    refine ⟨m4, h4, ?_⟩
    simp [dbToHdfs, dbToHdfsAux, h0, h1, h2, h3, h4, max_retries,
      List.replicate]

/-- A concrete failure-then-success environment: the first two attempts
raise, the third succeeds with 120 rows. -/
def flakyEnv : Nat → AttemptResult :=
  fun j => if j < 2 then .failed "connection refused" else .ok 120

/-- Witness for C5: under `flakyEnv` the loop succeeds on its third
attempt, having slept twice. -/
theorem c5_retry_policy_witness :
    dbToHdfs flakyEnv = ⟨successStatus 120, 3, List.replicate 2 10⟩ :=
  (c5_retry_policy flakyEnv).2.2.1 2 120 (by decide)
    (fun j hj => ⟨"connection refused", by
      interval_cases j <;> rfl⟩) (by decide)

/-! ## Lemmas about host counting -/

theorem valuesSum_bumpHost (m : List (String × Nat)) (h : String) :
    valuesSum (bumpHost m h) = valuesSum m + 1 := by
  induction m with
  | nil => simp [bumpHost, valuesSum]
  | cons p rest ih =>
      by_cases hk : p.1 == h
      · simp [bumpHost, hk, valuesSum]
        omega
      · simp [bumpHost, hk, valuesSum] at ih ⊢
        omega

theorem hostCount_bumpHost (m : List (String × Nat)) (h h' : String) :
    hostCount (bumpHost m h) h' =
      hostCount m h' + (if h == h' then 1 else 0) := by
  induction m with
  | nil => by_cases he : h == h' <;> simp [bumpHost, hostCount, he]
  | cons p rest ih =>
      by_cases hk : p.1 == h
      · have hph : p.1 = h := by simpa using hk
        by_cases he : h = h'
        · subst he
          simp [bumpHost, hk, hostCount, hph]
          omega
        · have : ¬(p.1 == h') := by simp [hph, he]
          simp [bumpHost, hk, hostCount, this, he]
      · by_cases hp : p.1 == h'
        · simp [bumpHost, hk, hostCount, hp] at ih ⊢
          omega
        · simp [bumpHost, hk, hostCount, hp] at ih ⊢
          exact ih

theorem valuesSum_foldl_bumpHost (hosts : List String) (m : List (String × Nat)) :
    valuesSum (hosts.foldl bumpHost m) = valuesSum m + hosts.length := by
  induction hosts generalizing m with
  | nil => simp
  | cons h rest ih =>
      simp [List.foldl_cons, ih, valuesSum_bumpHost]
      omega

theorem hostCount_foldl_bumpHost (hosts : List String) (m : List (String × Nat))
    (h' : String) :
    hostCount (hosts.foldl bumpHost m) h' = hostCount m h' + hosts.count h' := by
  induction hosts generalizing m with
  | nil => simp
  | cons h rest ih =>
      rw [List.foldl_cons, ih, hostCount_bumpHost, List.count_cons]
      by_cases he : h = h'
      · simp [he]
        omega
      · simp [he]

theorem valuesSum_countBlocks_aux (blockHosts : List (List String))
    (m : List (String × Nat)) :
    valuesSum (blockHosts.foldl (fun acc hosts => hosts.foldl bumpHost acc) m) =
      valuesSum m + (blockHosts.map List.length).sum := by
  induction blockHosts generalizing m with
  | nil => simp
  | cons hosts rest ih =>
      rw [List.foldl_cons, ih, valuesSum_foldl_bumpHost]
      simp
      omega

theorem hostCount_countBlocks_aux (blockHosts : List (List String))
    (m : List (String × Nat)) (h' : String) :
    hostCount (blockHosts.foldl (fun acc hosts => hosts.foldl bumpHost acc) m) h' =
      hostCount m h' + (blockHosts.map (fun hosts => hosts.count h')).sum := by
  induction blockHosts generalizing m with
  | nil => simp
  | cons hosts rest ih =>
      rw [List.foldl_cons, ih, hostCount_foldl_bumpHost]
      simp
      omega

/-! ## Claim C6 -/

/-- C6: when the block-placement metadata query fails (connection error,
HTTP error status, bad response body — including a non-existent path), the
operation returns an empty host-to-count mapping together with the
exception text as the error field (non-empty whenever the exception
carries a description), and — being a total function — never raises to the
caller. -/
theorem c6_locate_blocks_failure (msg : String) (hmsg : msg ≠ "") :
    (blockLocations (.failed msg)).block_entries = [] ∧
    (blockLocations (.failed msg)).error ≠ "" :=
  ⟨rfl, hmsg⟩

/-- Witness for C6 at the error text WebHDFS produces for a missing
path. -/
theorem c6_locate_blocks_failure_witness :
    (blockLocations (.failed "404 Client Error: File does not exist")).block_entries
        = [] ∧
    (blockLocations (.failed "404 Client Error: File does not exist")).error ≠ "" :=
  c6_locate_blocks_failure "404 Client Error: File does not exist" (by decide)

/-! ## Claim C7 -/

/-- C7: on a successful metadata query, each host listed by a block gets
its counter incremented by exactly one for that block, so every host's
final count is the number of blocks listing it, the sum of all counter
values equals the total number of (block, replica-host) pairs, and when
every block lists `r` replica hosts that sum is (number of blocks) × `r`. -/
theorem c7_block_host_counts (blockHosts : List (List String)) :
    (blockLocations (.ok blockHosts)).error = "" ∧
    valuesSum (blockLocations (.ok blockHosts)).block_entries =
      (blockHosts.map List.length).sum ∧
    (∀ h, hostCount (blockLocations (.ok blockHosts)).block_entries h =
      (blockHosts.map (fun hosts => hosts.count h)).sum) ∧
    (∀ r, (∀ b ∈ blockHosts, b.length = r) →
      valuesSum (blockLocations (.ok blockHosts)).block_entries =
        blockHosts.length * r) := by
  refine ⟨rfl, ?_, ?_, ?_⟩
  · show valuesSum (countBlocks blockHosts) = _
    rw [countBlocks, valuesSum_countBlocks_aux]
    simp [valuesSum]
  · intro h
    show hostCount (countBlocks blockHosts) h = _
    rw [countBlocks, hostCount_countBlocks_aux]
    simp [hostCount]
  · intro r hr
    show valuesSum (countBlocks blockHosts) = _
    rw [countBlocks, valuesSum_countBlocks_aux]
    simp [valuesSum]
    rw [List.map_congr_left hr]
    simp [Nat.mul_comm]

/-- Witness for C7: two blocks, each on two datanodes; the counts and their
sum come out as 2 × 2 with `w2` counted once per block. -/
theorem c7_block_host_counts_witness :
    valuesSum (blockLocations (.ok [["w1", "w2"], ["w2", "w3"]])).block_entries =
      [["w1", "w2"], ["w2", "w3"]].length * 2 ∧
    hostCount (blockLocations (.ok [["w1", "w2"], ["w2", "w3"]])).block_entries "w2" =
      ([["w1", "w2"], ["w2", "w3"]].map (fun hosts => hosts.count "w2")).sum :=
  ⟨(c7_block_host_counts [["w1", "w2"], ["w2", "w3"]]).2.2.2 2 (by decide),
   (c7_block_host_counts [["w1", "w2"], ["w2", "w3"]]).2.2.1 "w2"⟩

/-! ## Claim C8 -/

/-- Under referential integrity of `loan_type_id` (each loan matches
exactly one `loan_types` row), the inner join is the identity on the
loans. -/
theorem joinLoanTypes_of_unique (loans : List Loan) (types : List LoanType)
    (href : ∀ l ∈ loans,
      (types.filter (fun t => t.id == l.loan_type_id)).length = 1) :
    joinLoanTypes loans types = loans := by
  induction loans with
  | nil => rfl
  | cons l rest ih =>
      have h1 := href l (by simp)
      have hmap : (types.filter (fun t => t.id == l.loan_type_id)).map
          (fun _ => l) = [l] := by
        rcases hx : types.filter (fun t => t.id == l.loan_type_id) with
          - | ⟨x, xs⟩
        · rw [hx] at h1; simp at h1
        · rw [hx] at h1
          simp at h1
          subst h1
          rw [hx]
          rfl
      have ihr := ih (fun x hx => href x (by simp [hx]))
      simp only [joinLoanTypes, List.map_cons, List.flatten_cons, hmap]
      rw [show (rest.map fun l => (types.filter
        (fun t => t.id == l.loan_type_id)).map (fun _ => l)).flatten =
          joinLoanTypes rest types from rfl, ihr]
      rfl

/-- C8: with each loan's `loan_type_id` matching exactly one `loan_types`
row, the rows the extraction query returns are exactly the loans whose
`loan_amount` is strictly between 30000 and 800000; loans equal to a bound
or outside the bounds are excluded. -/
theorem c8_eligibility_bounds (loans : List Loan) (types : List LoanType)
    (href : ∀ l ∈ loans,
      (types.filter (fun t => t.id == l.loan_type_id)).length = 1) :
    dbQuery loans types = loans.filter eligibleLoan ∧
    (∀ l, l ∈ dbQuery loans types ↔
      l ∈ loans ∧ 30000 < l.loan_amount ∧ l.loan_amount < 800000) ∧
    (∀ l ∈ loans, l.loan_amount = 30000 ∨ l.loan_amount = 800000 →
      l ∉ dbQuery loans types) := by
  have hq : dbQuery loans types = loans.filter eligibleLoan := by
    rw [dbQuery, joinLoanTypes_of_unique loans types href]
  have hmem : ∀ l, l ∈ dbQuery loans types ↔
      l ∈ loans ∧ 30000 < l.loan_amount ∧ l.loan_amount < 800000 := by
    intro l
    rw [hq, List.mem_filter]
    simp [eligibleLoan]
  refine ⟨hq, hmem, ?_⟩
  intro l _ hbound hmem2
  have := (hmem l).mp hmem2
  rcases hbound with hb | hb <;> omega

/-- Concrete loans for the C8 witness: amounts at the bounds, inside, and
outside. -/
def witnessLoans : List Loan :=
  [⟨1, 55001, 30000⟩, ⟨1, 55001, 100000⟩, ⟨1, 55003, 800000⟩,
   ⟨2, 55003, 799999⟩, ⟨2, 55003, 30001⟩, ⟨2, 55005, 20000⟩]

/-- The matching `loan_types` rows for the C8 witness. -/
def witnessTypes : List LoanType := [⟨1⟩, ⟨2⟩]

/-- Witness for C8: the query keeps exactly the strictly-in-bounds
amounts. -/
theorem c8_eligibility_bounds_witness :
    dbQuery witnessLoans witnessTypes = witnessLoans.filter eligibleLoan :=
  (c8_eligibility_bounds witnessLoans witnessTypes (by decide)).1

/-! ## Claim C9 -/

/-- C9 counterexample: when `pd.read_sql` (the query step, `server.py`
line 39) raises after `engine.connect()` succeeded, the attempt ends with
the database connection still open — `conn.close()` (line 40) is skipped
and the `except` handler performs no cleanup — so not every handle
acquired during the call is released before the attempt ends. -/
theorem c9_query_failure_leaks_connection :
    ¬ handlesReleased (attemptEvents (some .query)) := by
  decide

/-- C9 amended: the HDFS output stream, opened under a `with` block, is
released on every exit path; and the database connection is released on
every exit path except the one where the query/read step fails after the
connection was opened. -/
theorem c9_handles_released_except_query (failAt : Option PipelineStep)
    (h : failAt ≠ some PipelineStep.query) :
    handlesReleased (attemptEvents failAt) := by
  rcases failAt with - | step
  · decide
  · cases step
    case query => exact absurd rfl h
    all_goals decide

/-- Witness for the amended C9 at the fully successful attempt. -/
theorem c9_handles_released_except_query_witness :
    handlesReleased (attemptEvents none) :=
  c9_handles_released_except_query none (by decide)

end Pipeline
